import Mathlib

set_option maxHeartbeats 1000000

/-!
Verification of the pasta paste store (src/main.rs) against its
natural-language specification.

The embedding models:
- the backing Redis store as a map from key strings to byte values with an
  absolute expiry instant (`Store`), with the two commands the program uses,
  `SETEX` (`Store.set_ex`) and `GETDEL` (`Store.getdel`);
- byte-to-text decoding as a faithful UTF-8 codec over byte lists, matching
  how the redis client decodes a bulk reply into a Rust `String`
  (`utf8Decode`, and `fromRedisValueOptString` for the `Option<String>`
  conversion, which fails with a type-conversion `RedisErr` on invalid bytes);
- the connection pool and network as explicit oracle parameters: a
  `pool : Except (RunError RedisErr) Unit` outcome for `pool.get()`, and a
  `cmdErr : Option RedisErr` outcome for the store command itself;
- key generation (`thread_rng().sample_iter(&Alphanumeric).take(8)`) as a
  function of an arbitrary stream `rng : Nat → Nat` of uniform samples, each
  reduced modulo the 62-symbol alphanumeric charset (`genKey`);
- the two axum handlers `get_paste` and `create_paste` as state-passing
  functions returning `Except PastaError String × Store`, and the
  error-to-response translation `PastaError.into_response`.
-/

namespace Pasta

/-- `const EXPIRY_SECS: usize = 60 * 30;` (src/main.rs line 17). -/
def EXPIRY_SECS : Nat := 60 * 30

/-- An error reported by the redis client library. Only the message text is
modelled; the program never inspects it beyond logging. -/
structure RedisErr where
  msg : String
deriving DecidableEq

/-- `bb8::RunError<E>`: outcome of a failed `pool.get()`. -/
inductive RunError (E : Type) : Type
  | User (err : E)
  | TimedOut
deriving DecidableEq

/-- `std::string::FromUtf8Error`, carrying the offending bytes. The program
declares a conversion from it but never performs one. -/
structure FromUtf8Error where
  bytes : List Nat
deriving DecidableEq

/-- The error enum `PastaError` (src/main.rs lines 46-56). The spec's names:
`NotFound`, `StoreError` (= `RedisError`), `ConnectionTimeout`,
`DecodeError` (= `PasteDecodeError`). -/
inductive PastaError : Type
  | NotFound (key : String)
  | RedisError (err : RedisErr)
  | ConnectionTimeout
  | PasteDecodeError (err : FromUtf8Error)
deriving DecidableEq

/-- `impl From<RunError<RedisError>> for PastaError` (src/main.rs lines 58-65). -/
def PastaError.ofRunError : RunError RedisErr → PastaError
  | .User e => .RedisError e
  | .TimedOut => .ConnectionTimeout

/-- An HTTP response as status code plus body text. -/
structure HttpResponse where
  status : Nat
  body : String
deriving DecidableEq

/-- `impl IntoResponse for PastaError` (src/main.rs lines 67-96): the
error-to-response mapping. The `eprintln!` server-side logging carries no
client-visible information and is not modelled. -/
def PastaError.into_response : PastaError → HttpResponse
  | .NotFound key => ⟨404, "not found: " ++ key⟩
  | .RedisError _ => ⟨500, ""⟩
  | .ConnectionTimeout => ⟨500, ""⟩
  | .PasteDecodeError _ => ⟨400, ""⟩

/-- UTF-8 encoding of one character, as in the byte representation of a Rust
`String`. -/
def utf8EncodeChar (c : Char) : List Nat :=
  let n := c.toNat
  if n < 0x80 then [n]
  else if n < 0x800 then [0xC0 + n / 64, 0x80 + n % 64]
  else if n < 0x10000 then
    [0xE0 + n / 4096, 0x80 + n / 64 % 64, 0x80 + n % 64]
  else
    [0xF0 + n / 262144, 0x80 + n / 4096 % 64, 0x80 + n / 64 % 64, 0x80 + n % 64]

/-- UTF-8 encoding of a character list. -/
def utf8EncodeList : List Char → List Nat
  | [] => []
  | c :: cs => utf8EncodeChar c ++ utf8EncodeList cs

/-- The bytes a Rust `String` sends to the store. -/
def utf8Encode (s : String) : List Nat := utf8EncodeList s.data

/-- Whether a byte is a UTF-8 continuation byte (`10xxxxxx`). -/
def isUtf8Cont (b : Nat) : Bool := decide (0x80 ≤ b) && decide (b < 0xC0)

/-- One step of strict UTF-8 decoding: decode the character starting with
byte `b0`, returning it and the unconsumed bytes. Rejects bad leading bytes,
bad continuation bytes, overlong forms, surrogates and out-of-range code
points, as `String::from_utf8` does. -/
def utf8Dec1 (b0 : Nat) (rest : List Nat) : Option (Char × List Nat) :=
  if b0 < 0x80 then some (Char.ofNat b0, rest)
  else if b0 < 0xC0 then none
  else if b0 < 0xE0 then
    match rest with
    | [] => none
    | b1 :: rest2 =>
      let n := (b0 - 0xC0) * 64 + (b1 - 0x80)
      if isUtf8Cont b1 && decide (0x80 ≤ n) then some (Char.ofNat n, rest2)
      else none
  else if b0 < 0xF0 then
    match rest with
    | [] => none
    | [_] => none
    | b1 :: b2 :: rest3 =>
      let n := (b0 - 0xE0) * 4096 + (b1 - 0x80) * 64 + (b2 - 0x80)
      if isUtf8Cont b1 && isUtf8Cont b2 && decide (0x800 ≤ n) &&
          !(decide (0xD800 ≤ n) && decide (n < 0xE000)) then
        some (Char.ofNat n, rest3)
      else none
  else if b0 < 0xF8 then
    match rest with
    | [] => none
    | [_] => none
    | [_, _] => none
    | b1 :: b2 :: b3 :: rest4 =>
      let n := (b0 - 0xF0) * 262144 + (b1 - 0x80) * 4096 +
        (b2 - 0x80) * 64 + (b3 - 0x80)
      if isUtf8Cont b1 && isUtf8Cont b2 && isUtf8Cont b3 &&
          decide (0x10000 ≤ n) && decide (n < 0x110000) then
        some (Char.ofNat n, rest4)
      else none
  else none

/-- Fuelled iteration of `utf8Dec1`; the fuel only serves termination and is
irrelevant once at least `bs.length` (`utf8DecodeLoop_fuel`). -/
def utf8DecodeLoop : Nat → List Nat → Option (List Char)
  | _, [] => some []
  | 0, _ :: _ => none
  | fuel + 1, b0 :: rest =>
    match utf8Dec1 b0 rest with
    | some (c, tail) => (utf8DecodeLoop fuel tail).map fun cs => c :: cs
    | none => none

/-- Strict UTF-8 decoding of a byte list, as performed by the redis client's
bulk-reply-to-`String` conversion. -/
def utf8Decode (bs : List Nat) : Option (List Char) :=
  utf8DecodeLoop bs.length bs

/-- The redis client's `FromRedisValue` conversion of a `GETDEL` reply into
`Option<String>`: a nil reply is `None`, a bulk reply is decoded as UTF-8,
and invalid bytes produce a type-conversion `RedisError` (not a
`FromUtf8Error`). -/
def fromRedisValueOptString : Option (List Nat) → Except RedisErr (Option String)
  | none => .ok none
  | some bs =>
    match utf8Decode bs with
    | some cs => .ok (some ⟨cs⟩)
    | none => .error ⟨"Response was of incompatible type"⟩

/-- The backing store: each redis key holds a byte value together with its
absolute expiry instant (seconds). -/
def Store : Type := String → Option (List Nat × Nat)

/-- Redis `SETEX key secs value` at instant `now`: the key expires `secs`
seconds later. -/
def Store.set_ex (st : Store) (k : String) (v : List Nat) (secs : Nat)
    (now : Nat) : Store :=
  fun k' => if k' = k then some (v, now + secs) else st k'

/-- Redis `GETDEL key` at instant `now`: atomically returns the live value
(if any) and removes the key. An expired entry is indistinguishable from an
absent one. -/
def Store.getdel (st : Store) (k : String) (now : Nat) :
    Option (List Nat) × Store :=
  match st k with
  | some (v, exp) =>
    if now < exp then (some v, fun k' => if k' = k then none else st k')
    else (none, fun k' => if k' = k then none else st k')
  | none => (none, st)

/-- The 62-symbol charset `rand::distributions::Alphanumeric` samples from. -/
def ALPHANUMERIC : List Char :=
  "ABCDEFGHIJKLMNOPQRSTUVWXYZabcdefghijklmnopqrstuvwxyz0123456789".data

/-- One `Alphanumeric` sample from a uniform random value. -/
def sampleAlphanumeric (r : Nat) : Char := ALPHANUMERIC.getD (r % 62) 'A'

/-- `thread_rng().sample_iter(&Alphanumeric).take(8).map(char::from).collect()`
(src/main.rs lines 119-123), over an arbitrary sample stream `rng`. -/
def genKey (rng : Nat → Nat) : String :=
  ⟨(List.range 8).map fun i => sampleAlphanumeric (rng i)⟩

/-- The handler `get_paste` (src/main.rs lines 98-111). `pool` is the outcome
of `pool.get().await` and `cmdErr` an external (network/protocol) failure of
the `GETDEL` call; both are threaded explicitly. Returns the handler result
together with the resulting store state. -/
def get_paste (key : String) (pool : Except (RunError RedisErr) Unit)
    (cmdErr : Option RedisErr) (st : Store) (now : Nat) :
    Except PastaError String × Store :=
  match pool with
  | .error e => (.error (PastaError.ofRunError e), st)
  | .ok _ =>
    match cmdErr with
    | some e => (.error (.RedisError e), st)
    | none =>
      let redis_key := "pasta:" ++ key
      let res := st.getdel redis_key now
      match fromRedisValueOptString res.1 with
      | .error e => (.error (.RedisError e), res.2)
      | .ok none => (.error (.NotFound key), res.2)
      | .ok (some value) => (.ok value, res.2)

/-- The handler `create_paste` (src/main.rs lines 113-128): acquire a pooled
connection, generate a key, `SETEX pasta:key paste EXPIRY_SECS`, return the
bare key. -/
def create_paste (paste : String) (pool : Except (RunError RedisErr) Unit)
    (cmdErr : Option RedisErr) (rng : Nat → Nat) (st : Store) (now : Nat) :
    Except PastaError String × Store :=
  match pool with
  | .error e => (.error (PastaError.ofRunError e), st)
  | .ok _ =>
    let key := genKey rng
    let redis_key := "pasta:" ++ key
    match cmdErr with
    | some e => (.error (.RedisError e), st)
    | none =>
      (.ok key, st.set_ex redis_key (utf8Encode paste) EXPIRY_SECS now)

/-- Whether a handler result is the `PasteDecodeError` (spec: `DecodeError`)
outcome. -/
def isDecodeError : Except PastaError String → Bool
  | .error (.PasteDecodeError _) => true
  | _ => false

/-- A concrete sample stream (all zero) for witnesses. -/
def rng0 : Nat → Nat := fun _ => 0

/-- The empty store, for witnesses. -/
def emptyStore : Store := fun _ => none

/-- A store holding a single live entry of invalid UTF-8 (the lone byte
`0xFF`) under the namespaced key of `"xy"`. -/
def badStore : Store := fun k => if k = "pasta:xy" then some ([0xFF], 100) else none

/-! Helper lemmas about the UTF-8 codec. -/

/-- A successful decoding step never produces more bytes than it was given. -/
theorem utf8Dec1_length (b0 : Nat) (rest : List Nat) (c : Char) (tail : List Nat)
    (h : utf8Dec1 b0 rest = some (c, tail)) : tail.length ≤ rest.length := by
  unfold utf8Dec1 at h
  repeat' split at h
  all_goals simp_all
  all_goals omega

/-- The decoding fuel is irrelevant once it is at least the byte count. -/
theorem utf8DecodeLoop_fuel (f1 : Nat) : ∀ (f2 : Nat) (bs : List Nat),
    bs.length ≤ f1 → bs.length ≤ f2 →
    utf8DecodeLoop f1 bs = utf8DecodeLoop f2 bs := by
  induction f1 with
  | zero =>
    intro f2 bs h1 _
    have hbs : bs = [] := List.eq_nil_of_length_eq_zero (Nat.le_zero.mp h1)
    subst hbs
    cases f2 <;> simp [utf8DecodeLoop]
  | succ f ih =>
    intro f2 bs h1 h2
    cases bs with
    | nil => cases f2 <;> simp [utf8DecodeLoop]
    | cons b0 rest =>
      cases f2 with
      | zero => simp at h2
      | succ f2' =>
        simp only [utf8DecodeLoop]
        cases hdec : utf8Dec1 b0 rest with
        | none => rfl
        | some p =>
          obtain ⟨c, tail⟩ := p
          have hlen := utf8Dec1_length _ _ _ _ hdec
          simp only [List.length_cons] at h1 h2
          simp only [ih f2' tail (by omega) (by omega)]

theorem utf8DecodeLoop_eq (fuel : Nat) (bs : List Nat) (h : bs.length ≤ fuel) :
    utf8DecodeLoop fuel bs = utf8Decode bs :=
  utf8DecodeLoop_fuel fuel bs.length bs h le_rfl

/-- Decoding after encoding one character recovers it and leaves the
remaining bytes untouched. -/
theorem utf8Decode_encodeChar (c : Char) (rest : List Nat) :
    utf8Decode (utf8EncodeChar c ++ rest) =
      (utf8Decode rest).map fun cs => c :: cs := by
  have hofn : Char.ofNat c.toNat = c := Char.ofNat_toNat c
  have hv : Nat.isValidChar c.toNat := c.valid
  have hub : c.toNat < 0x110000 := by
    rcases hv with h | ⟨_, h⟩ <;> omega
  have hsur : c.toNat < 0xD800 ∨ 0xDFFF < c.toNat := by
    rcases hv with h | ⟨h, _⟩ <;> omega
  set n := c.toNat with hn
  by_cases h1 : n < 0x80
  · have he : utf8EncodeChar c = [n] := by
      rw [utf8EncodeChar, if_pos h1]
    have hdec : utf8Dec1 n rest = some (c, rest) := by
      unfold utf8Dec1
      rw [if_pos h1, hofn]
    rw [he, List.cons_append, List.nil_append, utf8Decode, List.length_cons,
      utf8DecodeLoop, hdec]
    simp only [utf8DecodeLoop_eq rest.length rest le_rfl]
  · by_cases h2 : n < 0x800
    · have he : utf8EncodeChar c = [0xC0 + n / 64, 0x80 + n % 64] := by
        rw [utf8EncodeChar, if_neg h1, if_pos h2]
      have hrec : (0xC0 + n / 64 - 0xC0) * 64 + (0x80 + n % 64 - 0x80) = n := by
        omega
      have hdec : utf8Dec1 (0xC0 + n / 64) ((0x80 + n % 64) :: rest) =
          some (c, rest) := by
        unfold utf8Dec1
        rw [if_neg (by omega), if_neg (by omega), if_pos (by omega)]
        simp only [isUtf8Cont, hrec, Bool.and_eq_true, decide_eq_true_eq]
        rw [if_pos (by omega), hofn]
      rw [he, List.cons_append, List.cons_append, List.nil_append, utf8Decode,
        List.length_cons, List.length_cons, utf8DecodeLoop, hdec]
      simp only [utf8DecodeLoop_eq (rest.length + 1) rest (by omega)]
    · by_cases h3 : n < 0x10000
      · have he : utf8EncodeChar c =
            [0xE0 + n / 4096, 0x80 + n / 64 % 64, 0x80 + n % 64] := by
          rw [utf8EncodeChar, if_neg h1, if_neg h2, if_pos h3]
        have hrec : (0xE0 + n / 4096 - 0xE0) * 4096 +
            (0x80 + n / 64 % 64 - 0x80) * 64 + (0x80 + n % 64 - 0x80) = n := by
          omega
        have hdec : utf8Dec1 (0xE0 + n / 4096)
            ((0x80 + n / 64 % 64) :: (0x80 + n % 64) :: rest) =
            some (c, rest) := by
          unfold utf8Dec1
          rw [if_neg (by omega), if_neg (by omega), if_neg (by omega),
            if_pos (by omega)]
          simp only [isUtf8Cont, hrec, Bool.and_eq_true, Bool.not_eq_true',
            Bool.and_eq_false_iff, decide_eq_true_eq, decide_eq_false_iff_not]
          rw [if_pos (by omega), hofn]
        rw [he, List.cons_append, List.cons_append, List.cons_append,
          List.nil_append, utf8Decode, List.length_cons, List.length_cons,
          List.length_cons, utf8DecodeLoop, hdec]
        simp only [utf8DecodeLoop_eq (rest.length + 2) rest (by omega)]
      · have he : utf8EncodeChar c =
            [0xF0 + n / 262144, 0x80 + n / 4096 % 64, 0x80 + n / 64 % 64,
              0x80 + n % 64] := by
          rw [utf8EncodeChar, if_neg h1, if_neg h2, if_neg h3]
        have hrec : (0xF0 + n / 262144 - 0xF0) * 262144 +
            (0x80 + n / 4096 % 64 - 0x80) * 4096 +
            (0x80 + n / 64 % 64 - 0x80) * 64 + (0x80 + n % 64 - 0x80) = n := by
          omega
        have hdec : utf8Dec1 (0xF0 + n / 262144)
            ((0x80 + n / 4096 % 64) :: (0x80 + n / 64 % 64) ::
              (0x80 + n % 64) :: rest) = some (c, rest) := by
          unfold utf8Dec1
          rw [if_neg (by omega), if_neg (by omega), if_neg (by omega),
            if_neg (by omega), if_pos (by omega)]
          simp only [isUtf8Cont, hrec, Bool.and_eq_true, decide_eq_true_eq]
          rw [if_pos (by omega), hofn]
        rw [he, List.cons_append, List.cons_append, List.cons_append,
          List.cons_append, List.nil_append, utf8Decode, List.length_cons,
          List.length_cons, List.length_cons, List.length_cons,
          utf8DecodeLoop, hdec]
        simp only [utf8DecodeLoop_eq (rest.length + 3) rest (by omega)]

/-- Round trip of the codec on character lists. -/
theorem utf8Decode_encodeList (l : List Char) :
    utf8Decode (utf8EncodeList l) = some l := by
  induction l with
  | nil => rfl
  | cons c cs ih =>
    rw [utf8EncodeList, utf8Decode_encodeChar, ih, Option.map_some']

/-- Round trip of the codec on strings: the bytes a Rust `String` writes to
the store decode back to exactly that string. -/
theorem utf8Decode_encode (s : String) : utf8Decode (utf8Encode s) = some s.data := by
  rw [utf8Encode, utf8Decode_encodeList]

/-- `fromRedisValueOptString` undoes `utf8Encode`. -/
theorem fromRedisValue_encode (s : String) :
    fromRedisValueOptString (some (utf8Encode s)) = .ok (some s) := by
  rw [fromRedisValueOptString, utf8Decode_encode]

/-! Helper lemmas about the handlers on the healthy path (connection granted,
store command transmitted). -/

/-- `create_paste` on the healthy path: returns the generated bare key and
writes the body under the namespaced key with the configured expiry. -/
theorem create_paste_ok (paste : String) (rng : Nat → Nat) (st : Store) (now : Nat) :
    create_paste paste (.ok ()) none rng st now =
      (.ok (genKey rng),
        fun k' => if k' = "pasta:" ++ genKey rng then
          some (utf8Encode paste, now + EXPIRY_SECS) else st k') := rfl

/-- `get_paste` on the healthy path when the namespaced key holds a live
value: decodes it, removing the key. -/
theorem get_paste_live (key : String) (st : Store) (now : Nat) (bs : List Nat)
    (exp : Nat) (cs : List Char) (hent : st ("pasta:" ++ key) = some (bs, exp))
    (hlive : now < exp) (hdec : utf8Decode bs = some cs) :
    get_paste key (.ok ()) none st now =
      (.ok (String.mk cs),
        fun k' => if k' = "pasta:" ++ key then none else st k') := by
  simp only [get_paste, Store.getdel, hent, if_pos hlive,
    fromRedisValueOptString, hdec]

/-- `get_paste` on the healthy path when the namespaced key holds a live
value that is not valid UTF-8: the client-side conversion fails with a
redis type error, and the key is removed all the same. -/
theorem get_paste_live_bad (key : String) (st : Store) (now : Nat) (bs : List Nat)
    (exp : Nat) (hent : st ("pasta:" ++ key) = some (bs, exp))
    (hlive : now < exp) (hdec : utf8Decode bs = none) :
    get_paste key (.ok ()) none st now =
      (.error (.RedisError ⟨"Response was of incompatible type"⟩),
        fun k' => if k' = "pasta:" ++ key then none else st k') := by
  simp only [get_paste, Store.getdel, hent, if_pos hlive,
    fromRedisValueOptString, hdec]

/-- `get_paste` on the healthy path when the namespaced key is absent:
fails with `NotFound` on the bare key and leaves the store unchanged. -/
theorem get_paste_missing (key : String) (st : Store) (now : Nat)
    (hent : st ("pasta:" ++ key) = none) :
    get_paste key (.ok ()) none st now = (.error (.NotFound key), st) := by
  simp only [get_paste, Store.getdel, hent, fromRedisValueOptString]

/-- `get_paste` on the healthy path when the namespaced key holds only an
expired value: fails with `NotFound` on the bare key. -/
theorem get_paste_expired (key : String) (st : Store) (now : Nat) (bs : List Nat)
    (exp : Nat) (hent : st ("pasta:" ++ key) = some (bs, exp))
    (hexp : exp ≤ now) :
    get_paste key (.ok ()) none st now =
      (.error (.NotFound key),
        fun k' => if k' = "pasta:" ++ key then none else st k') := by
  simp only [get_paste, Store.getdel, hent, if_neg (by omega : ¬ now < exp),
    fromRedisValueOptString]

/-! The claims. -/

/-- Claim C1: for every content `C`, creating a paste with `C` and then
fetching the returned key yields exactly `C`: the request body is stored
verbatim (as its UTF-8 bytes) under the namespaced key and fetch returns the
stored value unmodified. -/
theorem fetch_create_roundtrip (paste : String) (rng : Nat → Nat) (st : Store)
    (now : Nat) :
    (create_paste paste (.ok ()) none rng st now).1 = .ok (genKey rng) ∧
    (get_paste (genKey rng) (.ok ()) none
      (create_paste paste (.ok ()) none rng st now).2 now).1 = .ok paste := by
  rw [create_paste_ok]
  refine ⟨rfl, ?_⟩
  rw [get_paste_live (genKey rng) _ now (utf8Encode paste) (now + EXPIRY_SECS)
    paste.data (by simp) (by simp [EXPIRY_SECS]) (utf8Decode_encode paste)]

/-- Every `Alphanumeric` sample lies in the 62-symbol charset. -/
theorem sampleAlphanumeric_mem (r : Nat) : sampleAlphanumeric r ∈ ALPHANUMERIC := by
  rw [sampleAlphanumeric]
  have h : r % 62 < ALPHANUMERIC.length := by
    have h62 : ALPHANUMERIC.length = 62 := by decide
    omega
  rw [List.getD_eq_getElem _ _ h]
  exact List.getElem_mem h

/-- Whatever the store holds, a healthy-path `get_paste` leaves the
namespaced key absent and every other key untouched. -/
theorem get_paste_frame (key : String) (st : Store) (now : Nat) :
    (get_paste key (.ok ()) none st now).2 ("pasta:" ++ key) = none ∧
    ∀ k', k' ≠ "pasta:" ++ key →
      (get_paste key (.ok ()) none st now).2 k' = st k' := by
  cases hent : st ("pasta:" ++ key) with
  | none =>
    rw [get_paste_missing _ _ _ hent]
    exact ⟨hent, fun _ _ => rfl⟩
  | some p =>
    obtain ⟨bs, exp⟩ := p
    by_cases hlive : now < exp
    · cases hdec : utf8Decode bs with
      | some cs =>
        rw [get_paste_live _ _ _ _ _ _ hent hlive hdec]
        exact ⟨by simp, fun k' hk => by simp [hk]⟩
      | none =>
        rw [get_paste_live_bad _ _ _ _ _ hent hlive hdec]
        exact ⟨by simp, fun k' hk => by simp [hk]⟩
    · rw [get_paste_expired _ _ _ _ _ hent (by omega)]
      exact ⟨by simp, fun k' hk => by simp [hk]⟩

/-- Claim C2: after a successful create, the first healthy-path fetch of the
returned key succeeds with the stored content and removes the namespaced key
from the store; and on any store in which that namespaced key is absent, a
healthy-path fetch fails with `NotFound` on the bare key and leaves the key
absent — so every fetch after the first fails with `NotFound`. The
get-and-remove is a single atomic step of the store (`Store.getdel`). -/
theorem exactly_once (paste : String) (rng : Nat → Nat) (st st2 : Store)
    (now now' t : Nat) (hfresh : now' < now + EXPIRY_SECS)
    (hgone : st2 ("pasta:" ++ genKey rng) = none) :
    (create_paste paste (.ok ()) none rng st now).1 = .ok (genKey rng) ∧
    (get_paste (genKey rng) (.ok ()) none
      (create_paste paste (.ok ()) none rng st now).2 now').1 = .ok paste ∧
    (get_paste (genKey rng) (.ok ()) none
      (create_paste paste (.ok ()) none rng st now).2 now').2
      ("pasta:" ++ genKey rng) = none ∧
    (get_paste (genKey rng) (.ok ()) none st2 t).1 =
      .error (.NotFound (genKey rng)) ∧
    (get_paste (genKey rng) (.ok ()) none st2 t).2 ("pasta:" ++ genKey rng)
      = none := by
  rw [create_paste_ok,
    get_paste_live _ _ now' (utf8Encode paste) (now + EXPIRY_SECS) paste.data
      (by simp) hfresh (utf8Decode_encode paste),
    get_paste_missing _ _ _ hgone]
  exact ⟨rfl, rfl, by simp, rfl, hgone⟩

/-- Witness for C2 at concrete inputs. -/
theorem exactly_once_witness :
    ((0 : Nat) < 0 + EXPIRY_SECS ∧ emptyStore ("pasta:" ++ genKey rng0) = none) ∧
    (create_paste "hello" (.ok ()) none rng0 emptyStore 0).1 = .ok (genKey rng0) ∧
    (get_paste (genKey rng0) (.ok ()) none
      (create_paste "hello" (.ok ()) none rng0 emptyStore 0).2 0).1 = .ok "hello" ∧
    (get_paste (genKey rng0) (.ok ()) none emptyStore 7).1 =
      .error (.NotFound (genKey rng0)) := by
  have h := exactly_once "hello" rng0 emptyStore emptyStore 0 0 7 (by decide) rfl
  exact ⟨⟨by decide, rfl⟩, h.1, h.2.1, h.2.2.2.1⟩

/-- Claim C3: every generated key has exactly 8 characters, drawn from the
62-symbol alphanumeric charset (26 lowercase, 26 uppercase, 10 digits),
whatever the random samples are; generation is a total function. -/
theorem key_shape (rng : Nat → Nat) :
    (genKey rng).length = 8 ∧
    ((genKey rng).data.all fun c => decide (c ∈ ALPHANUMERIC)) = true ∧
    ((genKey rng).data.all fun c => c.isAlphanum) = true ∧
    ALPHANUMERIC.length = 62 ∧ ALPHANUMERIC.Nodup ∧
    (ALPHANUMERIC.countP fun c => c.isLower) = 26 ∧
    (ALPHANUMERIC.countP fun c => c.isUpper) = 26 ∧
    (ALPHANUMERIC.countP fun c => c.isDigit) = 10 := by
  have hall : ∀ c ∈ ALPHANUMERIC, c.isAlphanum = true := by decide
  refine ⟨by simp [genKey], ?_, ?_, by decide, by decide, by decide, by decide,
    by decide⟩ <;>
  · rw [List.all_eq_true]
    intro c hc
    simp only [genKey, String.data] at hc
    obtain ⟨i, _, rfl⟩ := List.mem_map.mp hc
    simp [sampleAlphanumeric_mem, hall _ (sampleAlphanumeric_mem _)]

/-- Claim C4: the error-to-response mapping is total over the four error
kinds and maps each to exactly one status/body pair — `NotFound(key)` to 404
with body `not found: key`, `RedisError` (spec: `StoreError`) to 500 with
empty body, `ConnectionTimeout` to 500 with empty body, `PasteDecodeError`
(spec: `DecodeError`) to 400 with empty body — and only `NotFound` ever
places user-supplied data in the body: every other variant's body is empty
whatever the internal error detail. -/
theorem error_response_mapping :
    (∀ k, (PastaError.NotFound k).into_response = ⟨404, "not found: " ++ k⟩) ∧
    (∀ e, (PastaError.RedisError e).into_response = ⟨500, ""⟩) ∧
    PastaError.ConnectionTimeout.into_response = ⟨500, ""⟩ ∧
    (∀ e, (PastaError.PasteDecodeError e).into_response = ⟨400, ""⟩) ∧
    (∀ err : PastaError, (∃ k, err = .NotFound k ∧
        err.into_response.body = "not found: " ++ k) ∨
      err.into_response.body = "") := by
  refine ⟨fun k => rfl, fun e => rfl, rfl, fun e => rfl, fun err => ?_⟩
  cases err with
  | NotFound k => exact .inl ⟨k, rfl, rfl⟩
  | RedisError e => exact .inr rfl
  | ConnectionTimeout => exact .inr rfl
  | PasteDecodeError e => exact .inr rfl

/-- Claim C5: the translation of pool outcomes is total — `RunError.TimedOut`
becomes `ConnectionTimeout` and `RunError.User e` becomes `RedisError e`
(spec: `StoreError`), each pool failure mapping to exactly one of the two —
and in both handlers a pool timeout yields exactly `ConnectionTimeout`, a
pool user error or an error of the store call itself yields exactly
`RedisError`. -/
theorem pool_error_translation :
    (∀ e, PastaError.ofRunError (.User e) = .RedisError e) ∧
    PastaError.ofRunError .TimedOut = .ConnectionTimeout ∧
    (∀ r : RunError RedisErr,
      (r = .TimedOut ∧ PastaError.ofRunError r = .ConnectionTimeout) ∨
      ∃ e, r = .User e ∧ PastaError.ofRunError r = .RedisError e) ∧
    (∀ key cmd st now, get_paste key (.error .TimedOut) cmd st now =
      (.error .ConnectionTimeout, st)) ∧
    (∀ key cmd st now e, get_paste key (.error (.User e)) cmd st now =
      (.error (.RedisError e), st)) ∧
    (∀ key st now e, get_paste key (.ok ()) (some e) st now =
      (.error (.RedisError e), st)) ∧
    (∀ p cmd rng st now, create_paste p (.error .TimedOut) cmd rng st now =
      (.error .ConnectionTimeout, st)) ∧
    (∀ p cmd rng st now e, create_paste p (.error (.User e)) cmd rng st now =
      (.error (.RedisError e), st)) ∧
    (∀ p rng st now e, create_paste p (.ok ()) (some e) rng st now =
      (.error (.RedisError e), st)) := by
  refine ⟨fun e => rfl, rfl, fun r => ?_, fun _ _ _ _ => rfl,
    fun _ _ _ _ _ => rfl, fun _ _ _ _ => rfl, fun _ _ _ _ _ => rfl,
    fun _ _ _ _ _ _ => rfl, fun _ _ _ _ _ => rfl⟩
  cases r with
  | User e => exact .inr ⟨e, rfl, rfl⟩
  | TimedOut => exact .inl ⟨rfl, rfl⟩

/-- Claim C6: `EXPIRY_SECS` is 1800, every successful create writes its entry
with expiry instant exactly `now + 1800`, and a fetch at or after that
instant fails with `NotFound` on the key, indistinguishable from a
never-created key. -/
theorem create_expiry (paste : String) (rng : Nat → Nat) (st : Store)
    (now now' : Nat) (hlate : now + EXPIRY_SECS ≤ now') :
    EXPIRY_SECS = 1800 ∧
    (create_paste paste (.ok ()) none rng st now).2 ("pasta:" ++ genKey rng) =
      some (utf8Encode paste, now + 1800) ∧
    (get_paste (genKey rng) (.ok ()) none
      (create_paste paste (.ok ()) none rng st now).2 now').1 =
      .error (.NotFound (genKey rng)) := by
  refine ⟨rfl, ?_, ?_⟩
  · rw [create_paste_ok]
    simp [EXPIRY_SECS]
  · rw [create_paste_ok,
      get_paste_expired _ _ now' (utf8Encode paste) (now + EXPIRY_SECS)
        (by simp) hlate]

/-- Witness for C6 at concrete inputs. -/
theorem create_expiry_witness :
    (0 + EXPIRY_SECS ≤ 1800) ∧ EXPIRY_SECS = 1800 ∧
    (create_paste "hi" (.ok ()) none rng0 emptyStore 0).2
      ("pasta:" ++ genKey rng0) = some (utf8Encode "hi", 0 + 1800) ∧
    (get_paste (genKey rng0) (.ok ()) none
      (create_paste "hi" (.ok ()) none rng0 emptyStore 0).2 1800).1 =
      .error (.NotFound (genKey rng0)) := by
  have h := create_expiry "hi" rng0 emptyStore 0 1800 (by decide)
  exact ⟨by decide, h.1, h.2.1, h.2.2⟩

/-- Claim C7: both operations address the store only under the fixed
namespace: create writes exactly at `pasta:` ++ key and nowhere else while
returning the bare key, and fetch reads-and-removes exactly at
`pasta:` ++ key, leaving all other keys untouched and echoing the bare key
in `NotFound`. -/
theorem namespaced_addressing (paste key : String) (rng : Nat → Nat)
    (st : Store) (now : Nat) :
    (create_paste paste (.ok ()) none rng st now).1 = .ok (genKey rng) ∧
    (∀ k', (create_paste paste (.ok ()) none rng st now).2 k' =
      if k' = "pasta:" ++ genKey rng then
        some (utf8Encode paste, now + EXPIRY_SECS) else st k') ∧
    (get_paste key (.ok ()) none st now).2 ("pasta:" ++ key) = none ∧
    (∀ k', k' ≠ "pasta:" ++ key →
      (get_paste key (.ok ()) none st now).2 k' = st k') ∧
    (st ("pasta:" ++ key) = none →
      (get_paste key (.ok ()) none st now).1 = .error (.NotFound key)) := by
  refine ⟨by rw [create_paste_ok], fun k' => by rw [create_paste_ok],
    (get_paste_frame key st now).1, (get_paste_frame key st now).2,
    fun hmiss => ?_⟩
  rw [get_paste_missing _ _ _ hmiss]

/-- Witness for C7 at concrete inputs. -/
theorem namespaced_addressing_witness :
    (create_paste "hi" (.ok ()) none rng0 emptyStore 0).1 = .ok (genKey rng0) ∧
    (create_paste "hi" (.ok ()) none rng0 emptyStore 0).2 "unrelated" =
      emptyStore "unrelated" ∧
    (get_paste "zz" (.ok ()) none emptyStore 0).2 ("pasta:" ++ "zz") = none ∧
    (get_paste "zz" (.ok ()) none emptyStore 0).2 "unrelated" =
      emptyStore "unrelated" ∧
    (get_paste "zz" (.ok ()) none emptyStore 0).1 = .error (.NotFound "zz") := by
  have h := namespaced_addressing "hi" "zz" rng0 emptyStore 0
  refine ⟨h.1, ?_, h.2.2.1, h.2.2.2.1 "unrelated" (by decide), h.2.2.2.2 rfl⟩
  rw [h.2.1 "unrelated", if_neg (by decide)]

/-- Counterexample to claim C8 as stated: on a store holding the invalid
byte `0xFF` under `pasta:xy`, the healthy-path fetch of `"xy"` does not fail
with the `PasteDecodeError` (spec: `DecodeError`) kind — it fails with the
`RedisError` (spec: `StoreError`) type-conversion error, because the decode
happens inside the redis client's `Option<String>` conversion and its
failure is a `RedisError`, converted by `?` into `PastaError::RedisError`. -/
theorem fetch_invalid_bytes_counterexample :
    utf8Decode [0xFF] = none ∧
    isDecodeError (get_paste "xy" (.ok ()) none badStore 0).1 = false ∧
    (get_paste "xy" (.ok ()) none badStore 0).1 =
      .error (.RedisError ⟨"Response was of incompatible type"⟩) := by
  refine ⟨by decide, by decide, rfl⟩

/-- Claim C8 as amended: if a fetch finds a stored value whose bytes are not
valid text, the fetch fails with the `RedisError` (spec: `StoreError`) kind,
not `PasteDecodeError` (spec: `DecodeError`); indeed no fetch outcome
whatsoever is a `PasteDecodeError`. -/
theorem fetch_invalid_bytes_redis_error (key : String) (st : Store)
    (now exp : Nat) (bs : List Nat)
    (hent : st ("pasta:" ++ key) = some (bs, exp)) (hlive : now < exp)
    (hbad : utf8Decode bs = none) :
    (get_paste key (.ok ()) none st now).1 =
      .error (.RedisError ⟨"Response was of incompatible type"⟩) ∧
    ∀ (key' : String) (pool : Except (RunError RedisErr) Unit)
      (cmd : Option RedisErr) (st' : Store) (now' : Nat),
      isDecodeError (get_paste key' pool cmd st' now').1 = false := by
  refine ⟨by rw [get_paste_live_bad _ _ _ _ _ hent hlive hbad],
    fun key' pool cmd st' now' => ?_⟩
  cases pool with
  | error e => cases e <;> rfl
  | ok u =>
    cases u
    cases cmd with
    | some e => rfl
    | none =>
      simp only [get_paste]
      cases hF : fromRedisValueOptString
          ((st'.getdel ("pasta:" ++ key') now').1) with
      | error e => simp [hF, isDecodeError]
      | ok v => cases v <;> simp [hF, isDecodeError]

/-- Witness for the amended C8 at concrete inputs. -/
theorem fetch_invalid_bytes_redis_error_witness :
    (badStore ("pasta:" ++ "xy") = some ([0xFF], 100) ∧ (0 : Nat) < 100 ∧
      utf8Decode [0xFF] = none) ∧
    (get_paste "xy" (.ok ()) none badStore 0).1 =
      .error (.RedisError ⟨"Response was of incompatible type"⟩) ∧
    isDecodeError (get_paste "zz" (.ok ()) (some ⟨"boom"⟩) emptyStore 3).1
      = false := by
  have h := fetch_invalid_bytes_redis_error "xy" badStore 0 100 [0xFF]
    (by decide) (by decide) (by decide)
  exact ⟨⟨by decide, by decide, by decide⟩, h.1,
    h.2 "zz" (.ok ()) (some ⟨"boom"⟩) emptyStore 3⟩

/-- Claim C9: for every key whose namespaced entry is absent from the store
(never created, already fetched, or expired), the healthy-path fetch fails
with `NotFound` on exactly that bare key — and with no other error kind,
since the result is pinned to `NotFound`. -/
theorem unknown_key_not_found (key : String) (st : Store) (now : Nat)
    (h : st ("pasta:" ++ key) = none ∨
      ∃ bs exp, st ("pasta:" ++ key) = some (bs, exp) ∧ exp ≤ now) :
    (get_paste key (.ok ()) none st now).1 = .error (.NotFound key) := by
  rcases h with h | ⟨bs, exp, hent, hexp⟩
  · rw [get_paste_missing _ _ _ h]
  · rw [get_paste_expired _ _ _ _ _ hent hexp]

/-- Witness for C9 at concrete inputs: a never-created key on the empty
store, and an expired entry. -/
theorem unknown_key_not_found_witness :
    (emptyStore ("pasta:" ++ "zz") = none ∧
      badStore ("pasta:" ++ "xy") = some ([0xFF], 100) ∧ (100 : Nat) ≤ 100) ∧
    (get_paste "zz" (.ok ()) none emptyStore 3).1 = .error (.NotFound "zz") ∧
    (get_paste "xy" (.ok ()) none badStore 100).1 = .error (.NotFound "xy") := by
  exact ⟨⟨rfl, by decide, by decide⟩,
    unknown_key_not_found "zz" emptyStore 3 (.inl rfl),
    unknown_key_not_found "xy" badStore 100
      (.inr ⟨[0xFF], 100, by decide, by decide⟩)⟩

/-- Claim C10: in both handlers the pooled-connection acquisition precedes
every store command, so a pool timeout returns `ConnectionTimeout` with the
store completely unchanged — and for create the outcome is independent of
the random stream, i.e. no key was generated. -/
theorem connection_timeout_no_side_effect :
    (∀ key cmd st now, get_paste key (.error .TimedOut) cmd st now =
      (.error .ConnectionTimeout, st)) ∧
    (∀ p cmd rng st now, create_paste p (.error .TimedOut) cmd rng st now =
      (.error .ConnectionTimeout, st)) ∧
    (∀ p cmd rng rng' st now,
      create_paste p (.error .TimedOut) cmd rng st now =
        create_paste p (.error .TimedOut) cmd rng' st now) :=
  ⟨fun _ _ _ _ => rfl, fun _ _ _ _ _ => rfl, fun _ _ _ _ _ _ => rfl⟩

end Pasta
